import Mathlib

/-!
Shallow embedding of the user-account request handlers in
src/.../apps/user/views.py (django-init).

The relational store is modelled as lists of rows; each HTTP handler becomes a
pure function from its request data and the current store to a response and the
updated store. Framework pieces that live outside the repository (serializers,
the ActionToken model methods, the email facility) are modelled from the spec
and marked as such in their doc comments.
-/

/-- User row: email-identified account record with active flag, staff flag and
password hash, the fields the handlers in views.py read or write. -/
structure User where
  id : Nat
  email : String
  is_active : Bool
  is_staff : Bool
  password : String
deriving Repr, DecidableEq

/-- ActionToken row: single-use opaque key with a purpose tag (for example
account_activation or password_change), owned by one user, expirable. -/
structure ActionToken where
  key : String
  type : String
  userId : Nat
  expired : Bool
deriving Repr, DecidableEq

/-- TemporaryToken row: opaque session credential bound to exactly one user. -/
structure TemporaryToken where
  key : String
  userId : Nat
deriving Repr, DecidableEq

/-- The relational store the handlers share. -/
structure Store where
  users : List User
  actionTokens : List ActionToken
  tempTokens : List TemporaryToken
deriving Repr, DecidableEq

/-- Response bodies the handlers produce: empty, a serialized user, or a
mapping from field names to error messages. -/
inductive Body where
  | empty : Body
  | userData (u : User) : Body
  | fieldErrors (errs : List (String × String)) : Body
deriving Repr, DecidableEq

/-- An HTTP response: a status code and a body. -/
structure Response where
  status : Nat
  body : Body
deriving Repr, DecidableEq

/-- ORM lookup of a user row by primary key, as in token.user dereferencing. -/
def findUser (uid : Nat) (users : List User) : Option User :=
  users.find? (fun u => decide (u.id = uid))

/-- The queryset ActionToken.objects.filter(key=activation_token,
type=account_activation) built in UsersActivation.post. -/
def activationTokens (activation_token : String) (toks : List ActionToken) :
    List ActionToken :=
  toks.filter (fun tk => decide (tk.key = activation_token ∧ tk.type = "account_activation"))

/-- UsersActivation.post: if exactly one ActionToken matches the supplied key
with type account_activation, activate its owner, delete the token and return
the serialized user; otherwise return 400 with a field-level message under the
key activation_token. The owner lookup (token[0].user) is a non-null foreign
key; a dangling reference would raise in Django and is rendered here as a 500
response with the store untouched. -/
def UsersActivation.post (activation_token : String) (s : Store) : Response × Store :=
  let token := activationTokens activation_token s.actionTokens
  match token with
  | [t] =>
    match findUser t.userId s.users with
    | some u =>
      let u2 : User := { u with is_active := true }
      ({ status := 200, body := Body.userData u2 },
       { s with
           users := s.users.map (fun v => if v.id = u.id then u2 else v),
           actionTokens := s.actionTokens.erase t })
    | none => ({ status := 500, body := Body.empty }, s)
  | _ =>
    ({ status := 400,
       body := Body.fieldErrors
         [("activation_token",
           "\"" ++ activation_token ++ "\" is not a valid activation_token.")] }, s)

/-! Helper lemmas about lookups over mapped and filtered row lists. -/

/-- Saving a row through its primary key: if findUser returns u and we replace
every row whose id equals u.id by a row u2 with the same id, the lookup now
returns u2. -/
theorem findUser_map_update (uid : Nat) (users : List User) (u u2 : User)
    (h : findUser uid users = some u) (hid : u2.id = u.id) :
    findUser uid (users.map (fun v => if v.id = u.id then u2 else v)) = some u2 := by
  induction users with
  | nil => simp [findUser] at h
  | cons a l ih =>
    by_cases ha : a.id = uid
    · have hau : a = u := by
        have h2 := h
        unfold findUser at h2
        rw [List.find?_cons_of_pos _ (by simpa using ha)] at h2
        exact Option.some_inj.mp h2
      subst hau
      simp [findUser, hid, ha]
    · have h' : findUser uid l = some u := by
        have := h
        unfold findUser at this
        rwa [List.find?_cons_of_neg _ (by simpa using ha)] at this
      have huid : u.id = uid := by
        have := List.find?_some h'
        simpa using this
      have hne : ¬ a.id = u.id := fun hc => ha (hc.trans huid)
      unfold findUser
      simp only [List.map_cons]
      rw [if_neg hne]
      rw [List.find?_cons_of_neg _ (by simpa using ha)]
      exact ih h'

/-- If filtering a list by p yields exactly the singleton [t], then t occurs
exactly once and erasing it removes every occurrence. -/
theorem not_mem_erase_of_filter_singleton {α : Type} [DecidableEq α]
    (p : α → Bool) (l : List α) (t : α) (h : l.filter p = [t]) :
    t ∉ l.erase t := by
  induction l with
  | nil => simp [List.filter] at h
  | cons a l ih =>
    by_cases hpa : p a = true
    · rw [List.filter_cons_of_pos hpa] at h
      have hat : a = t ∧ l.filter p = [] := by
        constructor
        · exact (List.cons.injEq _ _ _ _ ▸ h).1
        · exact (List.cons.injEq _ _ _ _ ▸ h).2
      rcases hat with ⟨rfl, hnil⟩
      rw [List.erase_cons_head]
      intro hmem
      have : a ∈ l.filter p := List.mem_filter.mpr ⟨hmem, hpa⟩
      rw [hnil] at this
      simp at this
    · rw [List.filter_cons_of_neg hpa] at h
      have hpt : p t = true := by
        have : t ∈ l.filter p := by rw [h]; simp
        exact (List.mem_filter.mp this).2
      have hne : a ≠ t := fun hc => hpa (hc ▸ hpt)
      rw [List.erase_cons_tail]
      · intro hmem
        rcases List.mem_cons.mp hmem with hc | hc
        · exact hne hc.symm
        · exact ih h hc
      · simp [hne]

/-- C1: when the supplied token matches exactly one ActionToken of type
account_activation, UsersActivation.post activates the owner of that token,
deletes the matched token, and returns the serialized user with status 200. -/
theorem usersActivation_post_single_match
    (tok : String) (s : Store) (t : ActionToken) (u : User)
    (hfilter : activationTokens tok s.actionTokens = [t])
    (hu : findUser t.userId s.users = some u) :
    (UsersActivation.post tok s).1 =
      { status := 200, body := Body.userData { u with is_active := true } } ∧
    findUser t.userId (UsersActivation.post tok s).2.users =
      some { u with is_active := true } ∧
    (UsersActivation.post tok s).2.actionTokens = s.actionTokens.erase t ∧
    t ∉ (UsersActivation.post tok s).2.actionTokens := by
  have hpost : UsersActivation.post tok s =
      ({ status := 200, body := Body.userData { u with is_active := true } },
       { s with
           users := s.users.map (fun v => if v.id = u.id then { u with is_active := true } else v),
           actionTokens := s.actionTokens.erase t }) := by
    simp only [UsersActivation.post, hfilter, hu]
  refine ⟨by rw [hpost], ?_, by rw [hpost], ?_⟩
  · rw [hpost]
    exact findUser_map_update t.userId s.users u _ hu rfl
  · rw [hpost]
    exact not_mem_erase_of_filter_singleton _ s.actionTokens t hfilter

/-- Witness for C1 on a concrete store with one user and one matching token. -/
theorem usersActivation_post_single_match_witness :
    activationTokens "k1"
        [({ key := "k1", type := "account_activation", userId := 1, expired := false } : ActionToken)] =
      [({ key := "k1", type := "account_activation", userId := 1, expired := false } : ActionToken)] ∧
    findUser 1 [({ id := 1, email := "a", is_active := false, is_staff := false, password := "p" } : User)] =
      some { id := 1, email := "a", is_active := false, is_staff := false, password := "p" } ∧
    ((UsersActivation.post "k1"
        { users := [{ id := 1, email := "a", is_active := false, is_staff := false, password := "p" }],
          actionTokens := [{ key := "k1", type := "account_activation", userId := 1, expired := false }],
          tempTokens := [] }).1 =
      { status := 200,
        body := Body.userData { id := 1, email := "a", is_active := true, is_staff := false, password := "p" } }) := by
  refine ⟨by decide, by decide, ?_⟩
  exact (usersActivation_post_single_match "k1"
    { users := [{ id := 1, email := "a", is_active := false, is_staff := false, password := "p" }],
      actionTokens := [{ key := "k1", type := "account_activation", userId := 1, expired := false }],
      tempTokens := [] }
    { key := "k1", type := "account_activation", userId := 1, expired := false }
    { id := 1, email := "a", is_active := false, is_staff := false, password := "p" }
    (by decide) (by decide)).1

/-- C2: when the supplied token matches zero or more than one ActionToken of
type account_activation, UsersActivation.post returns status 400 with a
field-level message under the key activation_token. -/
theorem usersActivation_post_bad_token
    (tok : String) (s : Store)
    (h : (activationTokens tok s.actionTokens).length ≠ 1) :
    UsersActivation.post tok s =
      ({ status := 400,
         body := Body.fieldErrors
           [("activation_token", "\"" ++ tok ++ "\" is not a valid activation_token.")] }, s) := by
  unfold UsersActivation.post
  rcases hm : activationTokens tok s.actionTokens with _ | ⟨t, _ | ⟨t2, rest⟩⟩
  · rfl
  · exact absurd (by rw [hm]; rfl) h
  · rfl

/-- Witness for C2 on a concrete store with no matching token. -/
theorem usersActivation_post_bad_token_witness :
    (activationTokens "nope" ([] : List ActionToken)).length ≠ 1 ∧
    UsersActivation.post "nope" { users := [], actionTokens := [], tempTokens := [] } =
      ({ status := 400,
         body := Body.fieldErrors
           [("activation_token", "\"" ++ "nope" ++ "\" is not a valid activation_token.")] },
       { users := [], actionTokens := [], tempTokens := [] }) := by
  refine ⟨by decide, ?_⟩
  exact usersActivation_post_bad_token "nope"
    { users := [], actionTokens := [], tempTokens := [] } (by decide)

/-- C10: a failing activation request (zero or multiple matching tokens)
leaves the store unchanged: no is_active flag is modified and no ActionToken
is deleted. -/
theorem usersActivation_post_bad_token_frame
    (tok : String) (s : Store)
    (h : (activationTokens tok s.actionTokens).length ≠ 1) :
    (UsersActivation.post tok s).1.status = 400 ∧
    (UsersActivation.post tok s).2 = s := by
  unfold UsersActivation.post
  rcases hm : activationTokens tok s.actionTokens with _ | ⟨t, _ | ⟨t2, rest⟩⟩
  · exact ⟨rfl, rfl⟩
  · exact absurd (by rw [hm]; rfl) h
  · exact ⟨rfl, rfl⟩

/-- Witness for C10: two identical matching tokens give 400 and no change. -/
theorem usersActivation_post_bad_token_frame_witness :
    (activationTokens "k"
        [({ key := "k", type := "account_activation", userId := 1, expired := false } : ActionToken),
         ({ key := "k", type := "account_activation", userId := 2, expired := false } : ActionToken)]).length ≠ 1 ∧
    (UsersActivation.post "k"
        { users := [{ id := 1, email := "a", is_active := false, is_staff := false, password := "p" }],
          actionTokens := [{ key := "k", type := "account_activation", userId := 1, expired := false },
                           { key := "k", type := "account_activation", userId := 2, expired := false }],
          tempTokens := [] }).2 =
      { users := [{ id := 1, email := "a", is_active := false, is_staff := false, password := "p" }],
        actionTokens := [{ key := "k", type := "account_activation", userId := 1, expired := false },
                         { key := "k", type := "account_activation", userId := 2, expired := false }],
        tempTokens := [] } := by
  refine ⟨by decide, ?_⟩
  exact (usersActivation_post_bad_token_frame "k"
    { users := [{ id := 1, email := "a", is_active := false, is_staff := false, password := "p" }],
      actionTokens := [{ key := "k", type := "account_activation", userId := 1, expired := false },
                       { key := "k", type := "account_activation", userId := 2, expired := false }],
      tempTokens := [] } (by decide)).2

/-! ChangePassword endpoint. -/

/-- Modelled from the spec: Django set_password (framework code, not under
src) stores a hash of the raw password; the hash function is abstracted as an
injective tagging of the raw password. -/
def make_password (raw : String) : String := "hashed:" ++ raw

/-- User.set_password as used by ChangePassword.post: store the password hash
on the instance. -/
def User.set_password (u : User) (raw : String) : User :=
  { u with password := make_password raw }

/-- Modelled from the spec: ActionToken.get_password_change_token is a model
method not under src. Per the spec an ActionToken is a single-use opaque key
with a purpose tag, consumed (deleted or expired) after one successful use,
and at most one token with a given key is valid at a time; so the method
returns the valid (unexpired) token with the given key and type
password_change, if any. -/
def ActionToken.get_password_change_token (key : String) (toks : List ActionToken) :
    Option ActionToken :=
  toks.find? (fun tk => decide (tk.key = key ∧ tk.type = "password_change" ∧ tk.expired = false))

/-- Modelled from the spec: ActionToken.expire is a model method not under
src; it marks the token consumed so it is no longer valid. -/
def ActionToken.expire (t : ActionToken) : ActionToken :=
  { t with expired := true }

/-- ChangePassword.post: validate the request body (the ChangePasswordSerializer
is not under src, so validation is modelled as a boolean outcome; an invalid
body raises a validation error rendered as 400), look up the password-change
token, set the new password on its owner, save the user, expire the token and
return the serialized user. A missing token or a dangling owner reference
would raise in Django and is rendered here as a 500 response with the store
untouched. -/
def ChangePassword.post (valid : Bool) (token_key new_password : String) (s : Store) :
    Response × Store :=
  if valid then
    match ActionToken.get_password_change_token token_key s.actionTokens with
    | some t =>
      match findUser t.userId s.users with
      | some u =>
        let u2 := u.set_password new_password
        ({ status := 200, body := Body.userData u2 },
         { s with
             users := s.users.map (fun v => if v.id = u.id then u2 else v),
             actionTokens := s.actionTokens.map (fun tk => if tk = t then tk.expire else tk) })
      | none => ({ status := 500, body := Body.empty }, s)
    | none => ({ status := 500, body := Body.empty }, s)
  else
    ({ status := 400, body := Body.fieldErrors [] }, s)

/-- C3: a change-password request that passes validation and names a valid
password-change token sets the new password on the owner of the token, saves
the user, and expires the token, so the same token cannot drive a second
successful password change: after the first call the token lookup fails, and a
repeat request returns a non-200 status and leaves the store unchanged. The
uniqueness hypothesis is the spec invariant that at most one token with a
given key is valid at a time. -/
theorem changePassword_post_consumes_token
    (k pw : String) (s : Store) (t : ActionToken) (u : User)
    (ht : ActionToken.get_password_change_token k s.actionTokens = some t)
    (hu : findUser t.userId s.users = some u)
    (huniq : ∀ tk ∈ s.actionTokens,
      tk.key = k → tk.type = "password_change" → tk.expired = false → tk = t) :
    (ChangePassword.post true k pw s).1 =
      { status := 200, body := Body.userData (u.set_password pw) } ∧
    findUser t.userId (ChangePassword.post true k pw s).2.users =
      some (u.set_password pw) ∧
    ActionToken.get_password_change_token k (ChangePassword.post true k pw s).2.actionTokens =
      none ∧
    (∀ pw2,
      (ChangePassword.post true k pw2 (ChangePassword.post true k pw s).2).1.status ≠ 200 ∧
      (ChangePassword.post true k pw2 (ChangePassword.post true k pw s).2).2 =
        (ChangePassword.post true k pw s).2) := by
  have hpost : ChangePassword.post true k pw s =
      ({ status := 200, body := Body.userData (u.set_password pw) },
       { s with
           users := s.users.map (fun v => if v.id = u.id then u.set_password pw else v),
           actionTokens := s.actionTokens.map (fun tk => if tk = t then tk.expire else tk) }) := by
    simp only [ChangePassword.post, if_pos, ht, hu]
  have hnone : ActionToken.get_password_change_token k
      (s.actionTokens.map (fun tk => if tk = t then tk.expire else tk)) = none := by
    unfold ActionToken.get_password_change_token
    rw [List.find?_eq_none]
    intro a ha
    rcases List.mem_map.mp ha with ⟨tk, htk, rfl⟩
    by_cases hc : tk = t
    · subst hc
      simp [ActionToken.expire]
    · rw [if_neg hc]
      simp only [decide_eq_true_eq, not_and]
      intro h1 h2 h3
      exact absurd (huniq tk htk h1 h2 h3) hc
  refine ⟨by rw [hpost], ?_, ?_, ?_⟩
  · rw [hpost]
    exact findUser_map_update t.userId s.users u _ hu rfl
  · rw [hpost]
    exact hnone
  · intro pw2
    rw [hpost]
    have hsecond : ChangePassword.post true k pw2
        { s with
            users := s.users.map (fun v => if v.id = u.id then u.set_password pw else v),
            actionTokens := s.actionTokens.map (fun tk => if tk = t then tk.expire else tk) } =
        ({ status := 500, body := Body.empty },
         { s with
             users := s.users.map (fun v => if v.id = u.id then u.set_password pw else v),
             actionTokens := s.actionTokens.map (fun tk => if tk = t then tk.expire else tk) }) := by
      simp only [ChangePassword.post, if_pos, hnone]
    rw [hsecond]
    exact ⟨show (500 : Nat) ≠ 200 by decide, rfl⟩

/-- Witness for C3 on a concrete store with one user and one valid
password-change token. -/
theorem changePassword_post_consumes_token_witness :
    ActionToken.get_password_change_token "pc"
        [({ key := "pc", type := "password_change", userId := 1, expired := false } : ActionToken)] =
      some { key := "pc", type := "password_change", userId := 1, expired := false } ∧
    ((ChangePassword.post true "pc" "new"
        { users := [{ id := 1, email := "a", is_active := true, is_staff := false, password := "old" }],
          actionTokens := [{ key := "pc", type := "password_change", userId := 1, expired := false }],
          tempTokens := [] }).1 =
      { status := 200,
        body := Body.userData
          { id := 1, email := "a", is_active := true, is_staff := false,
            password := "hashed:" ++ "new" } }) := by
  refine ⟨by decide, ?_⟩
  exact (changePassword_post_consumes_token "pc" "new"
    { users := [{ id := 1, email := "a", is_active := true, is_staff := false, password := "old" }],
      actionTokens := [{ key := "pc", type := "password_change", userId := 1, expired := false }],
      tempTokens := [] }
    { key := "pc", type := "password_change", userId := 1, expired := false }
    { id := 1, email := "a", is_active := true, is_staff := false, password := "old" }
    (by decide) (by decide) (by decide)).1

/-! UserViewSet endpoints. -/

/-- UserViewSet.get_queryset pk handling: when the URL primary key kwarg is
the literal string me, it is replaced by the requesting user id before the
object lookup; otherwise the pk string is read as an integer primary key (a
non-numeric pk matches no row). -/
def resolvePk (requesterId : Nat) (pk : String) : Option Nat :=
  if pk = "me" then some requesterId else pk.toNat?

/-- ORM get_object: look up the user row whose primary key equals the
resolved pk; Http404 is modelled by none. -/
def getObject (pk : Option Nat) (users : List User) : Option User :=
  users.find? (fun u => decide (pk = some u.id))

/-- UserViewSet.destroy: look up the object; if found, set is_active to False
on the instance and save it; a Http404 from the lookup is swallowed by the
try/except; either way the handler returns 204 with an empty body. -/
def UserViewSet.destroy (requesterId : Nat) (pk : String) (s : Store) : Response × Store :=
  match getObject (resolvePk requesterId pk) s.users with
  | some u =>
    ({ status := 204, body := Body.empty },
     { s with
         users := s.users.map
           (fun v => if v.id = u.id then { u with is_active := false } else v) })
  | none => ({ status := 204, body := Body.empty }, s)

/-- UserViewSet.retrieve: on a successful lookup return the serialized user;
on Http404, staff requesters get the plain framework 404, while for non-staff
requesters the Http404 is re-raised as PermissionDenied and rendered 403. -/
def UserViewSet.retrieve (requester : User) (pk : String) (s : Store) : Response :=
  match getObject (resolvePk requester.id pk) s.users with
  | some u => { status := 200, body := Body.userData u }
  | none =>
    if requester.is_staff then { status := 404, body := Body.empty }
    else { status := 403, body := Body.empty }

/-- UserViewSet.update: the UserUpdateSerializer is not under src, so the
writable fields it applies are modelled as the email field alone (the claims
touching update only concern its error mapping). On a successful lookup the
validated fields are saved on the instance and the serialized user returned; on
Http404, staff requesters get the plain framework 404, non-staff requesters
get PermissionDenied, rendered 403. -/
def UserViewSet.update (requester : User) (pk : String) (newEmail : String) (s : Store) :
    Response × Store :=
  match getObject (resolvePk requester.id pk) s.users with
  | some u =>
    let u2 := { u with email := newEmail }
    ({ status := 200, body := Body.userData u2 },
     { s with users := s.users.map (fun v => if v.id = u.id then u2 else v) })
  | none =>
    if requester.is_staff then ({ status := 404, body := Body.empty }, s)
    else ({ status := 403, body := Body.empty }, s)

/-- C4: deleting an existing user soft-deletes it: the handler returns 204,
the user list keeps its length (the row is not removed), both token tables are
untouched, and row by row only the is_active flag of the row bearing the
target id changes, to false; every other field and every other row is
unchanged. The Nodup hypothesis is primary-key uniqueness of the user table. -/
theorem userViewSet_destroy_soft_delete
    (rid : Nat) (pk : String) (s : Store) (u : User)
    (hfound : getObject (resolvePk rid pk) s.users = some u)
    (hnd : (s.users.map User.id).Nodup) :
    (UserViewSet.destroy rid pk s).1 = { status := 204, body := Body.empty } ∧
    (UserViewSet.destroy rid pk s).2.users.length = s.users.length ∧
    (UserViewSet.destroy rid pk s).2.actionTokens = s.actionTokens ∧
    (UserViewSet.destroy rid pk s).2.tempTokens = s.tempTokens ∧
    (∀ i : Nat, ((UserViewSet.destroy rid pk s).2.users)[i]? =
      (s.users[i]?).map
        (fun v => if v.id = u.id then { v with is_active := false } else v)) := by
  have hfind : s.users.find? (fun v => decide (resolvePk rid pk = some v.id)) = some u := hfound
  have hu_mem : u ∈ s.users := List.mem_of_find?_eq_some hfind
  have hpost : UserViewSet.destroy rid pk s =
      ({ status := 204, body := Body.empty },
       { s with
           users := s.users.map
             (fun v => if v.id = u.id then { u with is_active := false } else v) }) := by
    simp only [UserViewSet.destroy, hfound]
  refine ⟨by rw [hpost], by rw [hpost]; exact List.length_map _ _,
    by rw [hpost], by rw [hpost], ?_⟩
  intro i
  rw [hpost]
  show (s.users.map
      (fun v => if v.id = u.id then { u with is_active := false } else v))[i]? = _
  rw [List.getElem?_map]
  cases hgi : s.users[i]? with
  | none => rfl
  | some v =>
    have hv_mem : v ∈ s.users := List.getElem?_mem hgi
    simp only [Option.map_some']
    by_cases hc : v.id = u.id
    · have hvu : v = u := List.inj_on_of_nodup_map hnd hv_mem hu_mem hc
      subst hvu
      simp
    · rw [if_neg hc, if_neg hc]

/-- Witness for C4 on a concrete two-user store. -/
theorem userViewSet_destroy_soft_delete_witness :
    getObject (resolvePk 1 "me")
        [({ id := 1, email := "a", is_active := true, is_staff := false, password := "p" } : User),
         ({ id := 2, email := "b", is_active := true, is_staff := false, password := "q" } : User)] =
      some { id := 1, email := "a", is_active := true, is_staff := false, password := "p" } ∧
    (([({ id := 1, email := "a", is_active := true, is_staff := false, password := "p" } : User),
       ({ id := 2, email := "b", is_active := true, is_staff := false, password := "q" } : User)].map User.id).Nodup) ∧
    ((UserViewSet.destroy 1 "me"
        { users := [{ id := 1, email := "a", is_active := true, is_staff := false, password := "p" },
           { id := 2, email := "b", is_active := true, is_staff := false, password := "q" }],
          actionTokens := [], tempTokens := [] }).1 =
      { status := 204, body := Body.empty }) := by
  refine ⟨by decide, by decide, ?_⟩
  exact (userViewSet_destroy_soft_delete 1 "me"
    { users := [{ id := 1, email := "a", is_active := true, is_staff := false, password := "p" },
       { id := 2, email := "b", is_active := true, is_staff := false, password := "q" }],
      actionTokens := [], tempTokens := [] }
    { id := 1, email := "a", is_active := true, is_staff := false, password := "p" }
    (by decide) (by decide)).1

/-- C8: a delete request whose lookup resolves no user still returns 204 and
leaves the whole store unchanged, and repeating the same delete yields the
same 204 response and the same final state. -/
theorem userViewSet_destroy_missing_idempotent
    (rid : Nat) (pk : String) (s : Store)
    (h : getObject (resolvePk rid pk) s.users = none) :
    UserViewSet.destroy rid pk s = ({ status := 204, body := Body.empty }, s) ∧
    UserViewSet.destroy rid pk (UserViewSet.destroy rid pk s).2 =
      ({ status := 204, body := Body.empty }, s) := by
  have h1 : UserViewSet.destroy rid pk s = ({ status := 204, body := Body.empty }, s) := by
    simp only [UserViewSet.destroy, h]
  exact ⟨h1, by rw [h1]; exact h1⟩

/-- Witness for C8 on an empty store. -/
theorem userViewSet_destroy_missing_idempotent_witness :
    getObject (resolvePk 1 "me") ([] : List User) = none ∧
    UserViewSet.destroy 1 "me" { users := [], actionTokens := [], tempTokens := [] } =
      ({ status := 204, body := Body.empty },
       { users := [], actionTokens := [], tempTokens := [] }) := by
  refine ⟨by decide, ?_⟩
  exact (userViewSet_destroy_missing_idempotent 1 "me"
    { users := [], actionTokens := [], tempTokens := [] } (by decide)).1

/-- C9: when the URL primary key is the literal string me, it is replaced by
the requesting user id before lookup; the object lookup for me is exactly the
lookup of the requesting user id, so any object it resolves bears the
requesting user id (the handlers operate on the requester record). -/
theorem userViewSet_me_is_self
    (requester : User) (s : Store) :
    resolvePk requester.id "me" = some requester.id ∧
    getObject (resolvePk requester.id "me") s.users = findUser requester.id s.users ∧
    (∀ u : User, getObject (resolvePk requester.id "me") s.users = some u →
      u.id = requester.id) := by
  have hres : resolvePk requester.id "me" = some requester.id := by
    simp [resolvePk]
  refine ⟨hres, ?_, ?_⟩
  · unfold getObject findUser
    rw [hres]
    congr 1
    funext v
    simp [eq_comm]
  · intro u hu
    have hfind : s.users.find? (fun v => decide (resolvePk requester.id "me" = some v.id)) =
        some u := hu
    have := List.find?_some hfind
    rw [hres] at this
    simpa [eq_comm] using this

/-- Witness for C9 on a concrete store. -/
theorem userViewSet_me_is_self_witness :
    resolvePk 7 "me" = some 7 ∧
    getObject (resolvePk 7 "me")
        [({ id := 7, email := "a", is_active := true, is_staff := false, password := "p" } : User)] =
      findUser 7
        [({ id := 7, email := "a", is_active := true, is_staff := false, password := "p" } : User)] := by
  have h := userViewSet_me_is_self
    { id := 7, email := "a", is_active := true, is_staff := false, password := "p" }
    { users := [{ id := 7, email := "a", is_active := true, is_staff := false, password := "p" }],
      actionTokens := [], tempTokens := [] }
  exact ⟨h.1, h.2.1⟩

/-- C5 counterexample: in UserViewSet.destroy a failed lookup is swallowed and
the handler answers 204, not 403, so it is false that every handler of the
module answers 403 when a non-staff request targets an unresolvable user. -/
theorem userViewSet_destroy_notfound_not_403 :
    (UserViewSet.destroy 1 "me" { users := [], actionTokens := [], tempTokens := [] }).1.status = 204 ∧
    (UserViewSet.destroy 1 "me" { users := [], actionTokens := [], tempTokens := [] }).1.status ≠ 403 := by
  exact ⟨by decide, by decide⟩

/-- C5 amended: for retrieve and update, a non-staff requester whose lookup
raises a not-found receives 403; destroy swallows the not-found and returns
204; in no handler does a failed lookup surface to a non-staff requester as a
raw 404. -/
theorem userViewSet_notfound_nonstaff_mapping
    (requester : User) (pk : String) (newEmail : String) (s : Store)
    (hstaff : requester.is_staff = false)
    (h : getObject (resolvePk requester.id pk) s.users = none) :
    UserViewSet.retrieve requester pk s = { status := 403, body := Body.empty } ∧
    UserViewSet.update requester pk newEmail s = ({ status := 403, body := Body.empty }, s) ∧
    (UserViewSet.destroy requester.id pk s).1.status = 204 ∧
    (UserViewSet.retrieve requester pk s).status ≠ 404 ∧
    (UserViewSet.update requester pk newEmail s).1.status ≠ 404 ∧
    (UserViewSet.destroy requester.id pk s).1.status ≠ 404 := by
  have hr : UserViewSet.retrieve requester pk s = { status := 403, body := Body.empty } := by
    simp [UserViewSet.retrieve, h, hstaff]
  have hup : UserViewSet.update requester pk newEmail s =
      ({ status := 403, body := Body.empty }, s) := by
    simp [UserViewSet.update, h, hstaff]
  have hd : UserViewSet.destroy requester.id pk s = ({ status := 204, body := Body.empty }, s) := by
    simp only [UserViewSet.destroy, h]
  refine ⟨hr, hup, by rw [hd], ?_, ?_, ?_⟩
  · rw [hr]; exact show (403 : Nat) ≠ 404 by decide
  · rw [hup]; exact show (403 : Nat) ≠ 404 by decide
  · rw [hd]; exact show (204 : Nat) ≠ 404 by decide

/-- Witness for the amended C5 on an empty store with a non-staff requester. -/
theorem userViewSet_notfound_nonstaff_mapping_witness :
    ({ id := 1, email := "e", is_active := true, is_staff := false, password := "p" } : User).is_staff = false ∧
    getObject (resolvePk 1 "me") ([] : List User) = none ∧
    UserViewSet.retrieve { id := 1, email := "e", is_active := true, is_staff := false, password := "p" }
        "me" { users := [], actionTokens := [], tempTokens := [] } =
      { status := 403, body := Body.empty } := by
  refine ⟨by decide, by decide, ?_⟩
  exact (userViewSet_notfound_nonstaff_mapping
    { id := 1, email := "e", is_active := true, is_staff := false, password := "p" }
    "me" "x" { users := [], actionTokens := [], tempTokens := [] }
    (by decide) (by decide)).1

/-! ResetPassword endpoint. -/

/-- Modelled from the spec: user.send_reset_password is not under src; per the
view docstring (create a new token allowing the user to change his password)
and the spec error model, it creates a password-change ActionToken for the
user and sends the reset email. Sent emails are tracked as a list of the
recipient user ids. -/
def User.send_reset_password (uid : Nat) (newKey : String) (s : Store) :
    Store × List Nat :=
  ({ s with actionTokens :=
      s.actionTokens ++ [{ key := newKey, type := "password_change", userId := uid, expired := false }] },
   [uid])

/-- ResetPassword.post: when the EMAIL_SERVICE setting is not true the
endpoint answers 501 before doing anything; otherwise the request body is
validated by the ResetPasswordSerializer (not under src, so the validation
outcome is modelled as either the validated user id or the field-level error
mapping) and a failed validation answers 400 with the serializer errors;
a validated request triggers send_reset_password and answers 201. The third
component of the result is the list of reset emails sent. -/
def ResetPassword.post (emailService : Bool)
    (validation : Except (List (String × String)) Nat) (newKey : String) (s : Store) :
    Response × Store × List Nat :=
  if emailService ≠ true then
    ({ status := 501, body := Body.empty }, s, [])
  else
    match validation with
    | Except.error errs => ({ status := 400, body := Body.fieldErrors errs }, s, [])
    | Except.ok uid =>
      let r := User.send_reset_password uid newKey s
      ({ status := 201, body := Body.empty }, r.1, r.2)

/-- C6: with EMAIL_SERVICE off, ResetPassword.post answers 501, sends no
email and creates no token (the store is unchanged); with EMAIL_SERVICE on
and a request body that fails validation, it answers 400 carrying the
field-level serializer errors, again with no email and no token. -/
theorem resetPassword_post_guard
    (emailService : Bool) (validation : Except (List (String × String)) Nat)
    (newKey : String) (s : Store) :
    (emailService ≠ true →
      ResetPassword.post emailService validation newKey s =
        ({ status := 501, body := Body.empty }, s, [])) ∧
    (∀ errs, emailService = true → validation = Except.error errs →
      ResetPassword.post emailService validation newKey s =
        ({ status := 400, body := Body.fieldErrors errs }, s, [])) := by
  constructor
  · intro h
    simp only [ResetPassword.post, if_pos h]
  · intro errs he hv
    subst he
    subst hv
    simp [ResetPassword.post]

/-- Witness for C6: both branches at concrete inputs. -/
theorem resetPassword_post_guard_witness :
    (false ≠ true ∧
      ResetPassword.post false (Except.ok 1) "nk" { users := [], actionTokens := [], tempTokens := [] } =
        ({ status := 501, body := Body.empty },
         { users := [], actionTokens := [], tempTokens := [] }, [])) ∧
    (true = true ∧
      ResetPassword.post true (Except.error [("email", "bad")]) "nk"
          { users := [], actionTokens := [], tempTokens := [] } =
        ({ status := 400, body := Body.fieldErrors [("email", "bad")] },
         { users := [], actionTokens := [], tempTokens := [] }, [])) := by
  constructor
  · exact ⟨by decide,
      (resetPassword_post_guard false (Except.ok 1) "nk"
        { users := [], actionTokens := [], tempTokens := [] }).1 (by decide)⟩
  · exact ⟨rfl,
      (resetPassword_post_guard true (Except.error [("email", "bad")]) "nk"
        { users := [], actionTokens := [], tempTokens := [] }).2 [("email", "bad")] rfl rfl⟩

/-! TemporaryTokenDestroy endpoint. -/

/-- TemporaryTokenDestroy.get_queryset: the queryset visible to the destroy
mixin is the TemporaryToken rows whose key equals the pk kwarg and whose user
is the requesting user. -/
def TemporaryTokenDestroy.get_queryset (key : String) (requesterId : Nat)
    (toks : List TemporaryToken) : List TemporaryToken :=
  toks.filter (fun t => decide (t.key = key ∧ t.userId = requesterId))

/-- TemporaryTokenDestroy destroy action (logout): the framework destroy mixin
fetches the object from the queryset above and deletes it, so only a token
whose key matches and whose bound user is the requester can be deleted; an
empty queryset yields a 404 and no deletion. -/
def TemporaryTokenDestroy.destroy (key : String) (requesterId : Nat) (s : Store) :
    Response × Store :=
  match TemporaryTokenDestroy.get_queryset key requesterId s.tempTokens with
  | [] => ({ status := 404, body := Body.empty }, s)
  | t :: _ =>
    ({ status := 204, body := Body.empty }, { s with tempTokens := s.tempTokens.erase t })

/-- C7: logout deletes a TemporaryToken only when its key equals the supplied
key and its bound user is the requesting user: any token missing from the
store afterwards had the supplied key and belonged to the requester, and a
token with a different owner or a different key is still present afterwards. -/
theorem temporaryTokenDestroy_only_own_token
    (key : String) (rid : Nat) (s : Store) :
    (∀ tk ∈ s.tempTokens,
      tk ∉ (TemporaryTokenDestroy.destroy key rid s).2.tempTokens →
        tk.key = key ∧ tk.userId = rid) ∧
    (∀ tk ∈ s.tempTokens, ¬ (tk.key = key ∧ tk.userId = rid) →
      tk ∈ (TemporaryTokenDestroy.destroy key rid s).2.tempTokens) := by
  rcases hq : TemporaryTokenDestroy.get_queryset key rid s.tempTokens with _ | ⟨t, rest⟩
  · have hd : TemporaryTokenDestroy.destroy key rid s = ({ status := 404, body := Body.empty }, s) := by
      simp only [TemporaryTokenDestroy.destroy, hq]
    constructor
    · intro tk hmem hnot
      rw [hd] at hnot
      exact absurd hmem hnot
    · intro tk hmem _
      rw [hd]
      exact hmem
  · have hd : TemporaryTokenDestroy.destroy key rid s =
        ({ status := 204, body := Body.empty }, { s with tempTokens := s.tempTokens.erase t }) := by
      simp only [TemporaryTokenDestroy.destroy, hq]
    have hpt : t.key = key ∧ t.userId = rid := by
      have : t ∈ TemporaryTokenDestroy.get_queryset key rid s.tempTokens := by
        rw [hq]; simp
      have := (List.mem_filter.mp this).2
      simpa using this
    constructor
    · intro tk hmem hnot
      rw [hd] at hnot
      by_cases hc : tk = t
      · subst hc; exact hpt
      · exact absurd ((List.mem_erase_of_ne hc).mpr hmem) hnot
    · intro tk hmem hno
      rw [hd]
      have hc : tk ≠ t := fun hcc => hno (hcc ▸ hpt)
      exact (List.mem_erase_of_ne hc).mpr hmem

/-- Witness for C7: with two tokens sharing one key, logout by user 1 keeps
the token bound to user 2. -/
theorem temporaryTokenDestroy_only_own_token_witness :
    ({ key := "k", userId := 2 } : TemporaryToken) ∈
      (TemporaryTokenDestroy.destroy "k" 1
        { users := [], actionTokens := [],
          tempTokens := [{ key := "k", userId := 1 }, { key := "k", userId := 2 }] }).2.tempTokens := by
  exact (temporaryTokenDestroy_only_own_token "k" 1
    { users := [], actionTokens := [],
      tempTokens := [{ key := "k", userId := 1 }, { key := "k", userId := 2 }] }).2
    { key := "k", userId := 2 } (by decide) (by decide)
